import Mathlib

/-!
Verification of the warehouse-inventory accounting core of `app.py`.

The development shallowly embeds the parts of the program the claims are
about: the `tools` and `inventory_movements` tables, the stock-derivation
SQL of `get_tools_in_location` / `get_full_stock_report` /
`get_warehouse_stock_report`, and the transaction operations
`add_importation`, `dispatch_tools`, `return_tools_batch`,
`update_field_tool_status`, plus the catalog writers `manage_client`,
`manage_responsible`, `manage_well`.

SQLite rows become Lean structures; NULLable columns become `Option`;
SQL aggregation becomes `List.filter` / `List.map` / `List.sum`;
transactions that roll back become `Except` (an error result leaves the
committed state untouched).
-/

/-- One row of the `inventory_movements` table. `quantity`, `location`,
`date`, `responsible` are always set by the writers; `sales_order` and
`well` are NULLable. `movement_type` and `location` are the raw strings
the program stores. -/
structure Movement where
  tool_id : Nat
  movement_type : String
  quantity : Int
  location : String
  date : String
  responsible : String
  sales_order : Option String
  well : Option String
deriving DecidableEq, Repr

/-- One row of the `tools` table. `serial_number` is NULLable;
`attributes` is a NULLable JSON string. -/
structure Tool where
  id : Nat
  part_number : String
  serial_number : Option String
  description : String
  tool_type : String
  application : String
  specific_type : String
  attributes : Option String
  is_active : Bool
deriving DecidableEq, Repr

/-- The state touched by the inventory operations: the `tools` table, the
`inventory_movements` table, and the next AUTOINCREMENT id for `tools`. -/
structure DB where
  tools : List Tool
  movements : List Movement
  next_tool_id : Nat
deriving DecidableEq, Repr

def emptyDB : DB := ⟨[], [], 1⟩

/-! ## Stock derivation (the `ToolStock` CTE)

The three `SUM(CASE ...)` expressions shared by `get_tools_in_location`,
`get_full_stock_report`, `get_warehouse_stock_report` and
`get_installed_tools_with_details`. -/

/-- Per-movement contribution to `warehouse_stock`:
`IN ('Importation','Return') THEN quantity`, `'Dispatch' THEN -quantity`,
`ELSE 0`. -/
def whCase (m : Movement) : Int :=
  if m.movement_type = "Importation" ∨ m.movement_type = "Return" then m.quantity
  else if m.movement_type = "Dispatch" then -m.quantity
  else 0

/-- Per-movement contribution to `field_stock`:
`'Dispatch' THEN quantity`, `'RevertInstallation' THEN quantity`,
`IN ('Return','Installed') THEN -quantity`, `ELSE 0`. -/
def fieldCase (m : Movement) : Int :=
  if m.movement_type = "Dispatch" then m.quantity
  else if m.movement_type = "RevertInstallation" then m.quantity
  else if m.movement_type = "Return" ∨ m.movement_type = "Installed" then -m.quantity
  else 0

/-- Per-movement contribution to `installed_stock`:
`'Installed' THEN quantity`, `'RevertInstallation' THEN -quantity`,
`ELSE 0`. -/
def instCase (m : Movement) : Int :=
  if m.movement_type = "Installed" then m.quantity
  else if m.movement_type = "RevertInstallation" then -m.quantity
  else 0

/-- The movements of one tool: the per-tool grouping (`GROUP BY tool_id`)
used by the stock reports. -/
def toolMovs (l : List Movement) (tid : Nat) : List Movement :=
  l.filter (fun m => m.tool_id == tid)

/-- The movements of one `(tool_id, well)` group: the grouping
(`GROUP BY tool_id, well`) used by `get_tools_in_location`. -/
def groupMovs (l : List Movement) (tid : Nat) (w : Option String) : List Movement :=
  l.filter (fun m => m.tool_id == tid && m.well == w)

/-- `warehouse_stock` of one tool, per-tool grouping (the reports' CTE). -/
def warehouse_stock (l : List Movement) (tid : Nat) : Int :=
  ((toolMovs l tid).map whCase).sum

/-- `field_stock` of one tool, per-tool grouping. -/
def field_stock (l : List Movement) (tid : Nat) : Int :=
  ((toolMovs l tid).map fieldCase).sum

/-- `installed_stock` of one tool, per-tool grouping. -/
def installed_stock (l : List Movement) (tid : Nat) : Int :=
  ((toolMovs l tid).map instCase).sum

/-- The stock column of a `(tool_id, well)` group that
`get_tools_in_location` filters and reports for the given location. -/
def locStock (location : String) (l : List Movement) (tid : Nat) (w : Option String) : Int :=
  if location = "Warehouse" then ((groupMovs l tid w).map whCase).sum
  else if location = "Field" then ((groupMovs l tid w).map fieldCase).sum
  else ((groupMovs l tid w).map instCase).sum

/-! ## The spec's derivation formulas

Second definitions following the specification's words, to be compared
with the CASE-expression derivation above (refinement check for C2). -/

/-- Sum of the quantities of all movements of one movement type in a
matching set (the spec's `Σ(Kind.qty)`). -/
def sumQty (ms : List Movement) (mt : String) : Int :=
  ((ms.filter (fun m => m.movement_type == mt)).map (fun m => m.quantity)).sum

/-- Spec formula: `warehouse_stock = Σ(Importation.qty) + Σ(Return.qty) − Σ(Dispatch.qty)`. -/
def specWarehouseFormula (ms : List Movement) : Int :=
  sumQty ms "Importation" + sumQty ms "Return" - sumQty ms "Dispatch"

/-- Spec formula: `field_stock = Σ(Dispatch.qty) + Σ(RevertInstallation.qty) − Σ(Return.qty) − Σ(Installed.qty)`. -/
def specFieldFormula (ms : List Movement) : Int :=
  sumQty ms "Dispatch" + sumQty ms "RevertInstallation" - sumQty ms "Return" - sumQty ms "Installed"

/-- Spec formula: `installed_stock = Σ(Installed.qty) − Σ(RevertInstallation.qty)`. -/
def specInstalledFormula (ms : List Movement) : Int :=
  sumQty ms "Installed" - sumQty ms "RevertInstallation"

/-- Total quantity ever imported for one tool. -/
def totalImported (l : List Movement) (tid : Nat) : Int :=
  sumQty (toolMovs l tid) "Importation"

/-! ## Transaction operations -/

/-- One element of the `tools_to_add` list passed to `add_importation`.
`quantity` defaults to 1 and `seat_size` may be absent in the caller's
dict; both are made explicit here. -/
structure ImportItem where
  part_number : String
  serial_number : Option String
  description : String
  tool_type : String
  application : String
  specific_type : String
  quantity : Int
  seat_size : Option String
deriving DecidableEq, Repr

/-- The `attributes_json` value `add_importation` stores: a one-key JSON
object when `seat_size` is present and non-empty, NULL otherwise. -/
def attributesJson (seat : Option String) : Option String :=
  match seat with
  | none => none
  | some s => if s = "" then none else some ("\x7b\"seat_size\": \"" ++ s ++ "\"\x7d")

/-- SQL three-valued `=` on a NULLable TEXT column: true only when both
sides are non-NULL and equal; a NULL on either side is never a match. -/
def sqlEqOpt (a b : Option String) : Bool :=
  match a, b with
  | some x, some y => x == y
  | _, _ => false

/-- The duplicate check of `add_importation` for `Unique_Tools`: does a
tool with this (part_number, serial_number) already have an
`Importation` movement under this sales order? The SQL's
`t.serial_number = ? OR (t.serial_number IS NULL AND ? IS NULL)` is
exactly `Option` equality, but `im.sales_order = ?` has no such IS NULL
branch, so it is SQL three-valued `=`: a NULL sales order never
matches. -/
def uniqueDuplicateExists (db : DB) (sales_order : Option String)
    (pn : String) (sn : Option String) : Bool :=
  db.tools.any (fun t =>
    t.part_number == pn && t.serial_number == sn &&
      db.movements.any (fun m =>
        m.tool_id == t.id && sqlEqOpt m.sales_order sales_order &&
          m.movement_type == "Importation"))

/-- The find-or-create lookup of `add_importation`:
`SELECT id FROM tools WHERE part_number = ? AND (serial_number = ? OR ...)`. -/
def findTool (db : DB) (pn : String) (sn : Option String) : Option Tool :=
  db.tools.find? (fun t => t.part_number == pn && t.serial_number == sn)

/-- The `Importation` movement row `add_importation` inserts
(location `Warehouse`, no well). -/
def importationMovement (it : ImportItem) (sales_order : Option String)
    (responsible date : String) (tid : Nat) : Movement :=
  ⟨tid, "Importation", it.quantity, "Warehouse", date, responsible, sales_order, none⟩

/-- Processing of a single `tool_data` item inside `add_importation`:
duplicate check for `Unique_Tools`, find-or-create of the tool row, then
insertion of the `Importation` movement. An error aborts the whole
transaction. -/
def importOne (db : DB) (sales_order : Option String) (responsible date : String)
    (it : ImportItem) : Except String DB :=
  if it.tool_type == "Unique_Tools" &&
      uniqueDuplicateExists db sales_order it.part_number it.serial_number then
    .error ("Unique Tool with Part Number " ++ it.part_number ++ " already exists.")
  else
    let p : DB × Nat :=
      match findTool db it.part_number it.serial_number with
      | some t => (db, t.id)
      | none =>
        ({ db with
            tools := db.tools ++ [⟨db.next_tool_id, it.part_number, it.serial_number,
              it.description, it.tool_type, it.application, it.specific_type,
              attributesJson it.seat_size, true⟩],
            next_tool_id := db.next_tool_id + 1 }, db.next_tool_id)
    .ok { p.1 with
      movements := p.1.movements ++ [importationMovement it sales_order responsible date p.2] }

/-- `add_importation(sales_order, responsible, date, tools_to_add)`:
processes the items in order inside one transaction; the first error
aborts everything. -/
def add_importation (db : DB) (sales_order : Option String) (responsible date : String)
    (items : List ImportItem) : Except String DB :=
  match items with
  | [] => .ok db
  | it :: rest =>
    match importOne db sales_order responsible date it with
    | .error e => .error e
    | .ok db1 => add_importation db1 sales_order responsible date rest

/-- Commit-or-rollback view of `add_importation`: on success the new
state is committed, on error the transaction is rolled back and the
database is unchanged. -/
def applyImportation (db : DB) (sales_order : Option String) (responsible date : String)
    (items : List ImportItem) : DB :=
  match add_importation db sales_order responsible date items with
  | .ok db1 => db1
  | .error _ => db

/-- One element of the `tools_to_dispatch` list. -/
structure DispatchItem where
  id : Nat
  quantity_to_dispatch : Int
deriving DecidableEq, Repr

/-- The `Dispatch` movement row `dispatch_tools` inserts
(location `Field`, destination well recorded, no sales order). -/
def dispatchMovement (it : DispatchItem) (responsible date : String)
    (well : Option String) : Movement :=
  ⟨it.id, "Dispatch", it.quantity_to_dispatch, "Field", date, responsible, none, well⟩

/-- `dispatch_tools(tools_to_dispatch, responsible, date, well)`. -/
def dispatch_tools (db : DB) (items : List DispatchItem) (responsible date : String)
    (well : Option String) : DB :=
  { db with movements := db.movements ++ items.map (dispatchMovement · responsible date well) }

/-- One element of the `tools_to_return` list; `well` is carried forward
from the dispatch the item came from (`tool_data.get('well')`). -/
structure ReturnItem where
  id : Nat
  quantity : Int
  well : Option String
deriving DecidableEq, Repr

/-- The `Return` movement row `return_tools_batch` inserts
(location `Warehouse`, the item's well carried forward). -/
def returnMovement (it : ReturnItem) (responsible date : String) : Movement :=
  ⟨it.id, "Return", it.quantity, "Warehouse", date, responsible, none, it.well⟩

/-- `return_tools_batch(tools_to_return, responsible, date)`. -/
def return_tools_batch (db : DB) (items : List ReturnItem) (responsible date : String) : DB :=
  { db with movements := db.movements ++ items.map (returnMovement · responsible date) }

/-- The (movement_type, location) pair `update_field_tool_status` derives
from `new_status`, `none` for an unknown status. -/
def statusMovementKind (new_status : String) : Option (String × String) :=
  if new_status = "Installed" then some ("Installed", "Installed")
  else if new_status = "Returned" then some ("Return", "Warehouse")
  else if new_status = "RevertInstallation" then some ("RevertInstallation", "Field")
  else none

/-- `update_field_tool_status(tool_id, new_status, responsible, date,
quantity)`: appends one movement for the three known statuses (its INSERT
names no `well` column, so the stored well is NULL) and does nothing for
any other status. -/
def update_field_tool_status (db : DB) (tool_id : Nat) (new_status responsible date : String)
    (quantity : Int) : DB :=
  match statusMovementKind new_status with
  | none => db
  | some (mt, loc) =>
    { db with movements := db.movements ++ [⟨tool_id, mt, quantity, loc, date, responsible, none, none⟩] }

/-! ## The stock-in-location query -/

/-- One dict of the `stock_list` built by `get_tools_in_location`
(`display_name` is presentation-only and is not modelled). -/
structure StockEntry where
  id : Nat
  type : String
  quantity : Int
  application : String
  specific_type : String
  part_number : String
  serial_number : Option String
  well : Option String
deriving DecidableEq, Repr

/-- The python normalisation of `serial_number`: NULL or a blank string
becomes `None`, anything else is kept as-is. -/
def normalizeSerial (sn : Option String) : Option String :=
  match sn with
  | none => none
  | some s => if s.toList.all Char.isWhitespace then none else some s

/-- The optional exact-match filters on `tool_type`, `application`,
`specific_type` (`None` means the filter is absent). -/
def matchesFilters (t : Tool) (cat app spec : Option String) : Bool :=
  (match cat with | none => true | some c => t.tool_type == c) &&
  (match app with | none => true | some a => t.application == a) &&
  (match spec with | none => true | some s => t.specific_type == s)

/-- The distinct `(tool_id, well)` group keys of one tool present in the
ledger — the rows the `GROUP BY tool_id, well` CTE produces for it. -/
def groupWells (l : List Movement) (tid : Nat) : List (Option String) :=
  ((l.filter (fun m => m.tool_id == tid)).map (fun m => m.well)).dedup

/-- `get_tools_in_location(location, tool_category, tool_application,
tool_specific_type, well)`: for an unknown location the empty list;
otherwise, for every active tool matching the filters and every
`(tool_id, well)` group with strictly positive stock in the requested
location's column (and matching the well filter via SQL `ts.well = ?`,
which a NULL group well never satisfies), one entry whose quantity is 1
for `Unique_Tools` and the group's stock count otherwise. -/
def get_tools_in_location (db : DB) (location : String)
    (tool_category tool_application tool_specific_type well : Option String) :
    List StockEntry :=
  if location == "Warehouse" || location == "Field" || location == "Installed" then
    db.tools.flatMap (fun t =>
      if t.is_active && matchesFilters t tool_category tool_application tool_specific_type then
        (groupWells db.movements t.id).filterMap (fun w =>
          if (match well with | none => true | some wf => w == some wf) &&
              decide (0 < locStock location db.movements t.id w) then
            some ⟨t.id, t.tool_type,
              if t.tool_type == "Unique_Tools" then 1 else locStock location db.movements t.id w,
              t.application, t.specific_type, t.part_number,
              normalizeSerial t.serial_number, w⟩
          else none)
      else [])
  else []

/-! ## Catalog writers -/

/-- One row of the `clients` / `responsibles` table. -/
structure CatalogRow where
  id : Nat
  name : String
  is_active : Bool
deriving DecidableEq, Repr

/-- A catalog table together with its next AUTOINCREMENT id. -/
structure CatalogTable where
  rows : List CatalogRow
  next_id : Nat
deriving DecidableEq, Repr

/-- `INSERT OR IGNORE INTO clients (name) VALUES (?)`: a no-op when any
row (active or not) already has the name, an insert of an active row
otherwise. -/
def insertOrIgnoreByName (tbl : CatalogTable) (name : String) : CatalogTable :=
  if tbl.rows.any (fun r => r.name == name) then tbl
  else ⟨tbl.rows ++ [⟨tbl.next_id, name, true⟩], tbl.next_id + 1⟩

/-- `manage_client(action, name, new_name)`. Python truthiness of the
string arguments is modelled as non-emptiness. -/
def manage_client (tbl : CatalogTable) (action name : String) (new_name : Option String) :
    CatalogTable :=
  if action == "add" && name != "" then
    insertOrIgnoreByName tbl name
  else if action == "edit" && name != "" && (match new_name with | some s => s != "" | none => false) then
    ⟨tbl.rows.map (fun r => if r.name == name then { r with name := new_name.getD r.name } else r),
      tbl.next_id⟩
  else if action == "deactivate" && name != "" then
    ⟨tbl.rows.map (fun r => if r.name == name then { r with is_active := false } else r),
      tbl.next_id⟩
  else tbl

/-- `manage_responsible(action, name, new_name)` — same body as
`manage_client` over the `responsibles` table. -/
def manage_responsible (tbl : CatalogTable) (action name : String) (new_name : Option String) :
    CatalogTable :=
  if action == "add" && name != "" then
    insertOrIgnoreByName tbl name
  else if action == "edit" && name != "" && (match new_name with | some s => s != "" | none => false) then
    ⟨tbl.rows.map (fun r => if r.name == name then { r with name := new_name.getD r.name } else r),
      tbl.next_id⟩
  else if action == "deactivate" && name != "" then
    ⟨tbl.rows.map (fun r => if r.name == name then { r with is_active := false } else r),
      tbl.next_id⟩
  else tbl

/-- One row of the `wells` table (map-view attributes included). -/
structure WellRow where
  id : Nat
  name : String
  latitude : Option String
  longitude : Option String
  well_trajectory : Option String
  well_fluid : Option String
  is_active : Bool
deriving DecidableEq, Repr

/-- The `wells` table with its next AUTOINCREMENT id. -/
structure WellTable where
  rows : List WellRow
  next_id : Nat
deriving DecidableEq, Repr

/-- `manage_well(action, name, new_name, latitude, longitude,
well_trajectory, well_fluid)`: `add` is `INSERT OR IGNORE` on the UNIQUE
name. -/
def manage_well (tbl : WellTable) (action name : String) (new_name : Option String)
    (latitude longitude well_trajectory well_fluid : Option String) : WellTable :=
  if action == "add" && name != "" then
    if tbl.rows.any (fun r => r.name == name) then tbl
    else ⟨tbl.rows ++ [⟨tbl.next_id, name, latitude, longitude, well_trajectory, well_fluid, true⟩],
      tbl.next_id + 1⟩
  else if action == "edit" && name != "" && (match new_name with | some s => s != "" | none => false) then
    ⟨tbl.rows.map (fun r =>
        if r.name == name then
          { r with
            name := new_name.getD r.name
            latitude := latitude
            longitude := longitude
            well_trajectory := well_trajectory
            well_fluid := well_fluid }
        else r),
      tbl.next_id⟩
  else if action == "deactivate" && name != "" then
    ⟨tbl.rows.map (fun r => if r.name == name then { r with is_active := false } else r),
      tbl.next_id⟩
  else tbl

/-! ## Availability-guarded operation ledgers

The transaction operations themselves never re-check quantities against
derived stock (the spec's §7 trust gap): the availability precondition is
enforced by the caller against the filtered stock lists. `OpLedger`
captures a ledger in which every appended movement is one of the
operations' rows and its quantity respected the relevant per-tool derived
stock at append time. -/

inductive OpLedger : List Movement → Prop where
  | nil : OpLedger []
  | importStep (l : List Movement) (it : ImportItem) (so : Option String) (r d : String)
      (tid : Nat) : OpLedger l → 0 < it.quantity →
      OpLedger (l ++ [importationMovement it so r d tid])
  | dispatchStep (l : List Movement) (it : DispatchItem) (r d : String) (w : Option String) :
      OpLedger l → 0 < it.quantity_to_dispatch →
      it.quantity_to_dispatch ≤ warehouse_stock l it.id →
      OpLedger (l ++ [dispatchMovement it r d w])
  | returnStep (l : List Movement) (it : ReturnItem) (r d : String) :
      OpLedger l → 0 < it.quantity → it.quantity ≤ field_stock l it.id →
      OpLedger (l ++ [returnMovement it r d])
  | installStep (l : List Movement) (tid : Nat) (r d : String) (q : Int) :
      OpLedger l → 0 < q → q ≤ field_stock l tid →
      OpLedger (l ++ [⟨tid, "Installed", q, "Installed", d, r, none, none⟩])
  | returnedStep (l : List Movement) (tid : Nat) (r d : String) (q : Int) :
      OpLedger l → 0 < q → q ≤ field_stock l tid →
      OpLedger (l ++ [⟨tid, "Return", q, "Warehouse", d, r, none, none⟩])
  | revertStep (l : List Movement) (tid : Nat) (r d : String) (q : Int) :
      OpLedger l → 0 < q → q ≤ installed_stock l tid →
      OpLedger (l ++ [⟨tid, "RevertInstallation", q, "Field", d, r, none, none⟩])

/-! ## Concrete scenarios (spec §8) -/

/-- Scenario A item: part `PN-100`, serial `SN-1`, category Unique, qty 1. -/
def itemA : ImportItem :=
  ⟨"PN-100", some "SN-1", "Ball Seat", "Unique_Tools", "Open Hole", "Seat", 1, none⟩

/-- Scenario A after importing under sales order `SO-1`. -/
def dbA1 : DB := applyImportation emptyDB (some "SO-1") "Pablo" "2024-01-01" [itemA]

/-- Scenario A after dispatching 1 unit to well `W-1`. -/
def dbA2 : DB := dispatch_tools dbA1 [⟨1, 1⟩] "Pablo" "2024-01-02" (some "W-1")

/-- Scenario A after installing 1 unit. -/
def dbA3 : DB := update_field_tool_status dbA2 1 "Installed" "Pablo" "2024-01-03" 1

/-- Scenario A after reverting the installation. -/
def dbA4 : DB := update_field_tool_status dbA3 1 "RevertInstallation" "Pablo" "2024-01-04" 1

/-- Scenario B item: part `PN-200`, Miscellaneous, no serial, qty 10. -/
def itemB : ImportItem :=
  ⟨"PN-200", none, "Centralizer", "Miscelaneous", "Miscellaneous", "Misc", 10, none⟩

/-- Scenario B after importing 10 units. -/
def dbB1 : DB := applyImportation emptyDB (some "SO-2") "Pablo" "2024-02-01" [itemB]

/-- Scenario B after dispatching 3 units to well `W-2`. -/
def dbB2 : DB := dispatch_tools dbB1 [⟨1, 3⟩] "Pablo" "2024-02-02" (some "W-2")

/-- Scenario B after returning 2 units, the `Return` carrying forward well `W-2`. -/
def dbB3 : DB := return_tools_batch dbB2 [⟨1, 2, some "W-2"⟩] "Pablo" "2024-02-03"

/-- The Scenario-B ledger written as the operations' appends, for the
guarded-ledger witness. -/
def opLedgerB : List Movement :=
  (([] ++ [importationMovement itemB (some "SO-2") "Pablo" "2024-02-01" 1])
    ++ [dispatchMovement ⟨1, 3⟩ "Pablo" "2024-02-02" (some "W-2")])
    ++ [returnMovement ⟨1, 2, some "W-2"⟩ "Pablo" "2024-02-03"]

/-- A catalog state holding one deactivated client named `Acme`. -/
def deactivatedAcme : CatalogTable := ⟨[⟨1, "Acme", false⟩], 2⟩

/-- A Unique item imported without a sales order (NULL `sales_order`). -/
def itemN : ImportItem :=
  ⟨"PN-300", some "SN-9", "Packer", "Unique_Tools", "Open Hole", "Seat", 1, none⟩

/-- The database after importing `itemN` under a NULL sales order. -/
def dbN1 : DB := applyImportation emptyDB none "Pablo" "2024-03-01" [itemN]
/-! ## Pointwise and summation lemmas -/

theorem sumQty_nil (mt : String) : sumQty [] mt = 0 := rfl

theorem sumQty_cons (m : Movement) (ms : List Movement) (mt : String) :
    sumQty (m :: ms) mt = (if m.movement_type = mt then m.quantity else 0) + sumQty ms mt := by
  by_cases h : m.movement_type = mt
  · simp [sumQty, List.filter_cons, h]
  · simp [sumQty, List.filter_cons, h]

theorem whCase_eq_formula (m : Movement) :
    whCase m = (if m.movement_type = "Importation" then m.quantity else 0)
      + (if m.movement_type = "Return" then m.quantity else 0)
      - (if m.movement_type = "Dispatch" then m.quantity else 0) := by
  unfold whCase
  by_cases h1 : m.movement_type = "Importation" <;>
    by_cases h2 : m.movement_type = "Return" <;>
      by_cases h3 : m.movement_type = "Dispatch" <;>
        simp_all

theorem fieldCase_eq_formula (m : Movement) :
    fieldCase m = (if m.movement_type = "Dispatch" then m.quantity else 0)
      + (if m.movement_type = "RevertInstallation" then m.quantity else 0)
      - (if m.movement_type = "Return" then m.quantity else 0)
      - (if m.movement_type = "Installed" then m.quantity else 0) := by
  unfold fieldCase
  by_cases h1 : m.movement_type = "Dispatch" <;>
    by_cases h2 : m.movement_type = "RevertInstallation" <;>
      by_cases h3 : m.movement_type = "Return" <;>
        by_cases h4 : m.movement_type = "Installed" <;>
          simp_all

theorem instCase_eq_formula (m : Movement) :
    instCase m = (if m.movement_type = "Installed" then m.quantity else 0)
      - (if m.movement_type = "RevertInstallation" then m.quantity else 0) := by
  unfold instCase
  by_cases h1 : m.movement_type = "Installed" <;>
    by_cases h2 : m.movement_type = "RevertInstallation" <;>
      simp_all

theorem whCase_sum_formula (ms : List Movement) :
    (ms.map whCase).sum = specWarehouseFormula ms := by
  induction ms with
  | nil => rfl
  | cons m ms ih =>
    simp only [List.map_cons, List.sum_cons, specWarehouseFormula, sumQty_cons] at *
    rw [whCase_eq_formula m]
    omega

theorem fieldCase_sum_formula (ms : List Movement) :
    (ms.map fieldCase).sum = specFieldFormula ms := by
  induction ms with
  | nil => rfl
  | cons m ms ih =>
    simp only [List.map_cons, List.sum_cons, specFieldFormula, sumQty_cons] at *
    rw [fieldCase_eq_formula m]
    omega

theorem instCase_sum_formula (ms : List Movement) :
    (ms.map instCase).sum = specInstalledFormula ms := by
  induction ms with
  | nil => rfl
  | cons m ms ih =>
    simp only [List.map_cons, List.sum_cons, specInstalledFormula, sumQty_cons] at *
    rw [instCase_eq_formula m]
    omega

theorem conservation_pointwise (m : Movement) :
    whCase m + fieldCase m + instCase m
      = (if m.movement_type = "Importation" then m.quantity else 0) := by
  unfold whCase fieldCase instCase
  by_cases h1 : m.movement_type = "Importation" <;>
    by_cases h2 : m.movement_type = "Return" <;>
      by_cases h3 : m.movement_type = "Dispatch" <;>
        by_cases h4 : m.movement_type = "RevertInstallation" <;>
          by_cases h5 : m.movement_type = "Installed" <;>
            simp_all

/-- C2: for every tool (and, for the location query, every well group)
and every ledger, the derived stocks computed by the program's CASE
expressions equal exactly the spec's Σ-formulas over the matching
movements — at the per-tool grouping used by the reports and at the
per-(tool, well) grouping used by `get_tools_in_location`. -/
theorem stock_derivation_formulas (l : List Movement) (tid : Nat) (w : Option String) :
    warehouse_stock l tid = specWarehouseFormula (toolMovs l tid)
    ∧ field_stock l tid = specFieldFormula (toolMovs l tid)
    ∧ installed_stock l tid = specInstalledFormula (toolMovs l tid)
    ∧ locStock "Warehouse" l tid w = specWarehouseFormula (groupMovs l tid w)
    ∧ locStock "Field" l tid w = specFieldFormula (groupMovs l tid w)
    ∧ locStock "Installed" l tid w = specInstalledFormula (groupMovs l tid w) := by
  refine ⟨?_, ?_, ?_, ?_, ?_, ?_⟩
  · exact whCase_sum_formula (toolMovs l tid)
  · exact fieldCase_sum_formula (toolMovs l tid)
  · exact instCase_sum_formula (toolMovs l tid)
  · rw [locStock, if_pos rfl]
    exact whCase_sum_formula (groupMovs l tid w)
  · rw [locStock, if_neg (by decide), if_pos rfl]
    exact fieldCase_sum_formula (groupMovs l tid w)
  · rw [locStock, if_neg (by decide), if_neg (by decide)]
    exact instCase_sum_formula (groupMovs l tid w)

/-- C1: conservation invariant — for every tool and every prefix of the
movement ledger (ordered by insertion), the sum of the three derived
stocks equals the total quantity ever imported for that tool. -/
theorem conservation_invariant (l : List Movement) (n : Nat) (tid : Nat) :
    warehouse_stock (l.take n) tid + field_stock (l.take n) tid
      + installed_stock (l.take n) tid = totalImported (l.take n) tid := by
  suffices h : ∀ l2 : List Movement, warehouse_stock l2 tid + field_stock l2 tid
      + installed_stock l2 tid = totalImported l2 tid from h (l.take n)
  intro l2
  unfold warehouse_stock field_stock installed_stock totalImported
  induction toolMovs l2 tid with
  | nil => rfl
  | cons m ms ih =>
    simp only [List.map_cons, List.sum_cons, sumQty_cons] at *
    have hp := conservation_pointwise m
    omega

/-! ## Scenario theorems -/

/-- C5: Scenario A evaluated against the code. The stock-in-location
query answers match the claim after the importation (warehouse 1) and
after the revert (field 1, installed absent), but diverge in between:
after the dispatch the Warehouse query still reports PN-100/SN-1 with
quantity 1 (the claim says warehouse 0) because the importation sits in
the NULL-well movement group, and after the installation the Field query
still reports quantity 1 (the claim says field 0) because the `Installed`
movement carries no well and lands in a different group than the
dispatch. -/
theorem scenario_a_divergence :
    (get_tools_in_location dbA1 "Warehouse" none none none none).map
        (fun e => (e.part_number, e.quantity)) = [("PN-100", 1)]
    ∧ (get_tools_in_location dbA2 "Warehouse" none none none none).map
        (fun e => (e.part_number, e.quantity)) = [("PN-100", 1)]
    ∧ (get_tools_in_location dbA2 "Field" none none none none).map
        (fun e => (e.part_number, e.quantity)) = [("PN-100", 1)]
    ∧ (get_tools_in_location dbA3 "Field" none none none none).map
        (fun e => (e.part_number, e.quantity)) = [("PN-100", 1)]
    ∧ (get_tools_in_location dbA3 "Installed" none none none none).map
        (fun e => (e.part_number, e.quantity)) = [("PN-100", 1)]
    ∧ (get_tools_in_location dbA4 "Field" none none none none).map
        (fun e => (e.part_number, e.quantity)) = [("PN-100", 1)]
    ∧ get_tools_in_location dbA4 "Installed" none none none none = [] := by
  decide

/-- C7: after Scenario A's dispatch the per-tool derived warehouse stock
of the tool is 0, yet the Warehouse stock-in-location query still returns
an entry for it — a tool with zero derived stock at the requested
location is not absent from the result. -/
theorem zero_stock_tool_reported :
    warehouse_stock dbA2.movements 1 = 0
    ∧ (get_tools_in_location dbA2 "Warehouse" none none none none).map
        (fun e => e.id) = [1] := by
  decide

/-- C6: after importing 10 units of PN-200, dispatching 3 to well `W-2`
and returning 2 with the Return carrying forward well `W-2`, the Field
query filtered by `well=W-2` returns exactly one entry, for PN-200, with
quantity 1. -/
theorem scenario_c_field_at_well :
    (get_tools_in_location dbB3 "Field" none none none (some "W-2")).map
      (fun e => (e.part_number, e.quantity)) = [("PN-200", 1)] := by
  decide

/-- C10: `update_field_tool_status` with a status other than `Installed`,
`Returned` or `RevertInstallation` leaves the database — hence the ledger
and every derived stock — completely unchanged; for the three known
statuses it appends exactly one movement whose stored `well` is NULL. -/
theorem update_field_status_behavior (db : DB) (tid : Nat) (s r d : String) (q : Int) :
    (s ≠ "Installed" → s ≠ "Returned" → s ≠ "RevertInstallation" →
      update_field_tool_status db tid s r d q = db)
    ∧ (∀ mt loc, statusMovementKind s = some (mt, loc) →
      (update_field_tool_status db tid s r d q).movements
        = db.movements ++ [⟨tid, mt, q, loc, d, r, none, none⟩]) := by
  constructor
  · intro h1 h2 h3
    unfold update_field_tool_status statusMovementKind
    simp [h1, h2, h3]
  · intro mt loc hk
    unfold update_field_tool_status
    rw [hk]

/-- Witness for C10: with the unknown status `Lost` nothing changes, and
an `Installed` status appends the well-less `Installed` row. -/
theorem update_field_status_behavior_witness :
    update_field_tool_status dbA2 1 "Lost" "Pablo" "2024-01-03" 1 = dbA2
    ∧ (update_field_tool_status dbA2 1 "Installed" "Pablo" "2024-01-03" 1).movements
      = dbA2.movements ++ [⟨1, "Installed", 1, "Installed", "2024-01-03", "Pablo", none, none⟩] :=
  ⟨(update_field_status_behavior dbA2 1 "Lost" "Pablo" "2024-01-03" 1).1
      (by decide) (by decide) (by decide),
    (update_field_status_behavior dbA2 1 "Installed" "Pablo" "2024-01-03" 1).2
      "Installed" "Installed" (by decide)⟩

/-! ## Duplicate-import rejection -/

theorem importOne_error_of_dup (db : DB) (so : Option String) (r d : String)
    (it : ImportItem) (h1 : it.tool_type = "Unique_Tools")
    (h2 : uniqueDuplicateExists db so it.part_number it.serial_number = true) :
    ∃ e, importOne db so r d it = .error e := by
  refine ⟨"Unique Tool with Part Number " ++ it.part_number ++ " already exists.", ?_⟩
  unfold importOne
  rw [if_pos]
  simp [h1, h2]

theorem importOne_ok_shape (db db1 : DB) (so : Option String) (r d : String)
    (it : ImportItem) (h : importOne db so r d it = .ok db1) :
    (∃ ts, db1.tools = db.tools ++ ts) ∧ (∃ ms, db1.movements = db.movements ++ ms) := by
  unfold importOne at h
  by_cases hc : (it.tool_type == "Unique_Tools" &&
      uniqueDuplicateExists db so it.part_number it.serial_number) = true
  · rw [if_pos hc] at h
    exact absurd h (by simp)
  · rw [if_neg hc] at h
    cases hf : findTool db it.part_number it.serial_number with
    | some t =>
      rw [hf] at h
      injection h with h
      subst h
      exact ⟨⟨[], by simp⟩, ⟨_, rfl⟩⟩
    | none =>
      rw [hf] at h
      injection h with h
      subst h
      exact ⟨⟨_, rfl⟩, ⟨_, rfl⟩⟩

theorem uniqueDuplicateExists_mono (db db1 : DB) (so : Option String)
    (pn : String) (sn : Option String)
    (ht : ∃ ts, db1.tools = db.tools ++ ts) (hm : ∃ ms, db1.movements = db.movements ++ ms)
    (h : uniqueDuplicateExists db so pn sn = true) :
    uniqueDuplicateExists db1 so pn sn = true := by
  obtain ⟨ts, ht⟩ := ht
  obtain ⟨ms, hm⟩ := hm
  simp only [uniqueDuplicateExists, List.any_eq_true, Bool.and_eq_true, beq_iff_eq] at h ⊢
  obtain ⟨t, htm, ⟨hpn, hsn⟩, m, hmm, hmprops⟩ := h
  refine ⟨t, ?_, ⟨hpn, hsn⟩, m, ?_, hmprops⟩
  · rw [ht]; exact List.mem_append_left _ htm
  · rw [hm]; exact List.mem_append_left _ hmm

/-- C4 counterexample: the duplicate check compares sales orders with
SQL `=`, which never matches NULL. Re-importing the same Unique
(part_number, serial_number) pair under the same NULL sales order — an
identical triple under NULL-identity — raises no error: the call
succeeds and a second `Importation` movement row is committed. -/
theorem null_sales_order_duplicate_accepted :
    add_importation dbN1 none "Pablo" "2024-03-02" [itemN]
      = .ok { dbN1 with
          movements := dbN1.movements ++ [importationMovement itemN none "Pablo" "2024-03-02" 1] }
    ∧ (applyImportation dbN1 none "Pablo" "2024-03-02" [itemN]).movements.length
      = dbN1.movements.length + 1 :=
  ⟨by rfl, by decide⟩

/-- C4 amended: calling `add_importation` with a batch containing a
`Unique_Tools` item for which some tool with the same (part_number,
serial_number) already has an `Importation` movement whose sales order
matches the call's under SQL `=` — both non-NULL and equal; a NULL sales
order never matches — raises a validation error, and the transaction
rolls back: the committed state is unchanged, so no new movement row
exists after the failed call. -/
theorem duplicate_unique_import_rejected (db : DB) (so : Option String) (r d : String)
    (items : List ImportItem)
    (h : ∃ it ∈ items, it.tool_type = "Unique_Tools" ∧
      uniqueDuplicateExists db so it.part_number it.serial_number = true) :
    (∃ e, add_importation db so r d items = .error e)
    ∧ applyImportation db so r d items = db := by
  have herr : ∃ e, add_importation db so r d items = .error e := by
    induction items generalizing db with
    | nil =>
      obtain ⟨it, hmem, _⟩ := h
      exact absurd hmem (List.not_mem_nil it)
    | cons it rest ih =>
      obtain ⟨it2, hmem, hu, hd⟩ := h
      rcases List.mem_cons.mp hmem with heq | hmem2
      · subst heq
        obtain ⟨e, he⟩ := importOne_error_of_dup db so r d it2 hu hd
        exact ⟨e, by rw [add_importation, he]⟩
      · cases him : importOne db so r d it with
        | error e => exact ⟨e, by rw [add_importation, him]⟩
        | ok db1 =>
          have hshape := importOne_ok_shape db db1 so r d it him
          have hd1 := uniqueDuplicateExists_mono db db1 so it2.part_number
            it2.serial_number hshape.1 hshape.2 hd
          obtain ⟨e, he⟩ := ih db1 ⟨it2, hmem2, hu, hd1⟩
          refine ⟨e, ?_⟩
          rw [add_importation, him]
          exact he
  obtain ⟨e, he⟩ := herr
  exact ⟨⟨e, he⟩, by rw [applyImportation, he]⟩

/-- Witness for C4: re-importing Scenario A's unique item under the same
sales order fails and leaves the database exactly as it was. -/
theorem duplicate_unique_import_rejected_witness :
    (∃ e, add_importation dbA1 (some "SO-1") "Antony" "2024-01-05" [itemA] = .error e)
    ∧ applyImportation dbA1 (some "SO-1") "Antony" "2024-01-05" [itemA] = dbA1 :=
  duplicate_unique_import_rejected dbA1 (some "SO-1") "Antony" "2024-01-05" [itemA]
    ⟨itemA, by decide, by decide, by decide⟩

/-! ## Reported quantities -/

/-- C8: every entry a stock-in-location query returns reports quantity
exactly 1 when its tool's category is `Unique_Tools`, whatever the
arithmetic stock of its movement group; for any other category
(`Miscelaneous`) the reported quantity equals the derived stock of the
entry's (tool, well) group at the queried location. -/
theorem unique_tool_quantity_one (db : DB) (location : String)
    (cat app spec well : Option String) (e : StockEntry)
    (he : e ∈ get_tools_in_location db location cat app spec well) :
    (e.type = "Unique_Tools" → e.quantity = 1)
    ∧ (e.type ≠ "Unique_Tools" →
      e.quantity = locStock location db.movements e.id e.well) := by
  by_cases hloc : (location == "Warehouse" || location == "Field" || location == "Installed") = true
  · rw [get_tools_in_location, if_pos hloc] at he
    rw [List.mem_flatMap] at he
    obtain ⟨t, ht, he⟩ := he
    by_cases hact : (t.is_active && matchesFilters t cat app spec) = true
    · rw [if_pos hact] at he
      rw [List.mem_filterMap] at he
      obtain ⟨w, hw, he⟩ := he
      split at he
      · have he2 := Option.some.inj he
        subst he2
        by_cases hu : (t.tool_type == "Unique_Tools") = true
        · refine ⟨fun _ => by simp [hu], fun hne => ?_⟩
          exact absurd (beq_iff_eq.mp hu) hne
        · refine ⟨fun heq => absurd (beq_iff_eq.mpr heq) hu, fun _ => ?_⟩
          simp [hu]
      · exact absurd he (by simp)
    · rw [if_neg hact] at he
      exact absurd he (List.not_mem_nil e)
  · rw [get_tools_in_location, if_neg hloc] at he
    exact absurd he (List.not_mem_nil e)

/-- Witness for C8: the Scenario A Warehouse entry (Unique: quantity 1)
and the Scenario B Warehouse entry (Miscellaneous: quantity = the
group's derived stock, 10). -/
theorem unique_tool_quantity_one_witness :
    (⟨1, "Unique_Tools", 1, "Open Hole", "Seat", "PN-100", some "SN-1", none⟩ :
        StockEntry).quantity = 1
    ∧ (⟨1, "Miscelaneous", 10, "Miscellaneous", "Misc", "PN-200", none, none⟩ :
        StockEntry).quantity = locStock "Warehouse" dbB1.movements 1 none :=
  ⟨(unique_tool_quantity_one dbA1 "Warehouse" none none none none _ (by decide)).1 (by decide),
    (unique_tool_quantity_one dbB1 "Warehouse" none none none none _ (by decide)).2 (by decide)⟩

/-! ## Catalog add idempotency -/

/-- C9 counterexample: starting from a table whose only `Acme` row is
deactivated, calling "add client" twice with the name `Acme` leaves zero
active rows with that name, not one — `INSERT OR IGNORE` on the UNIQUE
name ignores the insert because a (soft-deleted) row already exists. -/
theorem catalog_add_counterexample :
    ((manage_client (manage_client deactivatedAcme "add" "Acme" none) "add" "Acme" none).rows.filter
      (fun r => r.name == "Acme" && r.is_active)).length ≠ 1 := by
  decide

theorem insertOrIgnore_fresh (tbl : CatalogTable) (name : String)
    (habs : ∀ r ∈ tbl.rows, r.name ≠ name) :
    insertOrIgnoreByName tbl name = ⟨tbl.rows ++ [⟨tbl.next_id, name, true⟩], tbl.next_id + 1⟩ := by
  rw [insertOrIgnoreByName, if_neg]
  simp only [List.any_eq_true, beq_iff_eq, not_exists, not_and]
  intro r hr
  exact habs r hr

theorem insertOrIgnore_present (tbl : CatalogTable) (name : String)
    (hpres : ∃ r ∈ tbl.rows, r.name = name) :
    insertOrIgnoreByName tbl name = tbl := by
  rw [insertOrIgnoreByName, if_pos]
  simp only [List.any_eq_true, beq_iff_eq]
  exact hpres

theorem manage_client_add (tbl : CatalogTable) (name : String) (hn : name ≠ "") :
    manage_client tbl "add" name none = insertOrIgnoreByName tbl name := by
  rw [manage_client, if_pos]
  simp [hn]

theorem manage_responsible_add (tbl : CatalogTable) (name : String) (hn : name ≠ "") :
    manage_responsible tbl "add" name none = insertOrIgnoreByName tbl name := by
  rw [manage_responsible, if_pos]
  simp [hn]

theorem filter_name_active_fresh (rows : List CatalogRow) (name : String)
    (habs : ∀ r ∈ rows, r.name ≠ name) (nid : Nat) :
    ((rows ++ [(⟨nid, name, true⟩ : CatalogRow)]).filter
      (fun r => r.name == name && r.is_active)).length = 1 := by
  rw [List.filter_append]
  have h1 : rows.filter (fun r => r.name == name && r.is_active) = [] := by
    rw [List.filter_eq_nil_iff]
    intro r hr
    simp [habs r hr]
  rw [h1]
  simp

/-- C9 amended: when no row — active or deactivated — with the given
non-empty name exists beforehand, calling "add client" (and likewise
"add responsible" and "add well") twice with that name leaves exactly one
active row with that name, and the second call is a no-op rather than an
error; re-adding an already present name (even a deactivated one) is
always an ignored no-op. -/
theorem catalog_add_idempotent (tbl rtbl : CatalogTable) (wtbl : WellTable) (name : String)
    (lat lng traj fluid : Option String) (hn : name ≠ "")
    (hc : ∀ r ∈ tbl.rows, r.name ≠ name)
    (hr : ∀ r ∈ rtbl.rows, r.name ≠ name)
    (hw : ∀ r ∈ wtbl.rows, r.name ≠ name) :
    (((manage_client tbl "add" name none).rows.filter
        (fun r => r.name == name && r.is_active)).length = 1
      ∧ manage_client (manage_client tbl "add" name none) "add" name none
        = manage_client tbl "add" name none)
    ∧ (((manage_responsible rtbl "add" name none).rows.filter
        (fun r => r.name == name && r.is_active)).length = 1
      ∧ manage_responsible (manage_responsible rtbl "add" name none) "add" name none
        = manage_responsible rtbl "add" name none)
    ∧ (((manage_well wtbl "add" name none lat lng traj fluid).rows.filter
        (fun r => r.name == name && r.is_active)).length = 1
      ∧ manage_well (manage_well wtbl "add" name none lat lng traj fluid)
          "add" name none lat lng traj fluid
        = manage_well wtbl "add" name none lat lng traj fluid) := by
  refine ⟨⟨?_, ?_⟩, ⟨?_, ?_⟩, ⟨?_, ?_⟩⟩
  · rw [manage_client_add tbl name hn, insertOrIgnore_fresh tbl name hc]
    exact filter_name_active_fresh tbl.rows name hc tbl.next_id
  · rw [manage_client_add tbl name hn, insertOrIgnore_fresh tbl name hc,
      manage_client_add _ name hn, insertOrIgnore_present]
    exact ⟨⟨tbl.next_id, name, true⟩, by simp, rfl⟩
  · rw [manage_responsible_add rtbl name hn, insertOrIgnore_fresh rtbl name hr]
    exact filter_name_active_fresh rtbl.rows name hr rtbl.next_id
  · rw [manage_responsible_add rtbl name hn, insertOrIgnore_fresh rtbl name hr,
      manage_responsible_add _ name hn, insertOrIgnore_present]
    exact ⟨⟨rtbl.next_id, name, true⟩, by simp, rfl⟩
  · have h1 : manage_well wtbl "add" name none lat lng traj fluid
        = ⟨wtbl.rows ++ [⟨wtbl.next_id, name, lat, lng, traj, fluid, true⟩], wtbl.next_id + 1⟩ := by
      rw [manage_well, if_pos (by simp [hn]), if_neg]
      simp only [List.any_eq_true, beq_iff_eq, not_exists, not_and]
      intro r hrm
      exact hw r hrm
    rw [h1, List.filter_append]
    have h2 : wtbl.rows.filter (fun r => r.name == name && r.is_active) = [] := by
      rw [List.filter_eq_nil_iff]
      intro r hrm
      simp [hw r hrm]
    rw [h2]
    simp
  · have h1 : manage_well wtbl "add" name none lat lng traj fluid
        = ⟨wtbl.rows ++ [⟨wtbl.next_id, name, lat, lng, traj, fluid, true⟩], wtbl.next_id + 1⟩ := by
      rw [manage_well, if_pos (by simp [hn]), if_neg]
      simp only [List.any_eq_true, beq_iff_eq, not_exists, not_and]
      intro r hrm
      exact hw r hrm
    rw [h1, manage_well, if_pos (by simp [hn]), if_pos]
    simp only [List.any_eq_true, beq_iff_eq]
    exact ⟨⟨wtbl.next_id, name, lat, lng, traj, fluid, true⟩, by simp, rfl⟩

/-- Witness for C9 amended: adding the well name `W-9` twice to empty
catalogs. -/
theorem catalog_add_idempotent_witness :
    (((manage_client ⟨[], 1⟩ "add" "W-9" none).rows.filter
        (fun r => r.name == "W-9" && r.is_active)).length = 1
      ∧ manage_client (manage_client ⟨[], 1⟩ "add" "W-9" none) "add" "W-9" none
        = manage_client ⟨[], 1⟩ "add" "W-9" none)
    ∧ (((manage_responsible ⟨[], 1⟩ "add" "W-9" none).rows.filter
        (fun r => r.name == "W-9" && r.is_active)).length = 1
      ∧ manage_responsible (manage_responsible ⟨[], 1⟩ "add" "W-9" none) "add" "W-9" none
        = manage_responsible ⟨[], 1⟩ "add" "W-9" none)
    ∧ (((manage_well ⟨[], 1⟩ "add" "W-9" none none none none none).rows.filter
        (fun r => r.name == "W-9" && r.is_active)).length = 1
      ∧ manage_well (manage_well ⟨[], 1⟩ "add" "W-9" none none none none none)
          "add" "W-9" none none none none none
        = manage_well ⟨[], 1⟩ "add" "W-9" none none none none none) :=
  catalog_add_idempotent ⟨[], 1⟩ ⟨[], 1⟩ ⟨[], 1⟩ "W-9" none none none none
    (by decide) (by simp) (by simp) (by simp)

/-! ## Non-negativity under availability-guarded operations -/

theorem toolMovs_append (l1 l2 : List Movement) (tid : Nat) :
    toolMovs (l1 ++ l2) tid = toolMovs l1 tid ++ toolMovs l2 tid :=
  List.filter_append _ _

theorem warehouse_stock_append (l1 l2 : List Movement) (tid : Nat) :
    warehouse_stock (l1 ++ l2) tid = warehouse_stock l1 tid + warehouse_stock l2 tid := by
  unfold warehouse_stock
  rw [toolMovs_append, List.map_append, List.sum_append]

theorem field_stock_append (l1 l2 : List Movement) (tid : Nat) :
    field_stock (l1 ++ l2) tid = field_stock l1 tid + field_stock l2 tid := by
  unfold field_stock
  rw [toolMovs_append, List.map_append, List.sum_append]

theorem installed_stock_append (l1 l2 : List Movement) (tid : Nat) :
    installed_stock (l1 ++ l2) tid = installed_stock l1 tid + installed_stock l2 tid := by
  unfold installed_stock
  rw [toolMovs_append, List.map_append, List.sum_append]

theorem warehouse_stock_single (m : Movement) (tid : Nat) :
    warehouse_stock [m] tid = if m.tool_id = tid then whCase m else 0 := by
  unfold warehouse_stock toolMovs
  by_cases h : m.tool_id = tid <;> simp [h]

theorem field_stock_single (m : Movement) (tid : Nat) :
    field_stock [m] tid = if m.tool_id = tid then fieldCase m else 0 := by
  unfold field_stock toolMovs
  by_cases h : m.tool_id = tid <;> simp [h]

theorem installed_stock_single (m : Movement) (tid : Nat) :
    installed_stock [m] tid = if m.tool_id = tid then instCase m else 0 := by
  unfold installed_stock toolMovs
  by_cases h : m.tool_id = tid <;> simp [h]

theorem opledger_stocks_nonneg (l : List Movement) (h : OpLedger l) (tid : Nat) :
    0 ≤ warehouse_stock l tid ∧ 0 ≤ field_stock l tid ∧ 0 ≤ installed_stock l tid := by
  induction h with
  | nil => exact ⟨le_refl 0, le_refl 0, le_refl 0⟩
  | importStep l it so r d tid2 hl hq ih =>
    rw [warehouse_stock_append, field_stock_append, installed_stock_append,
      warehouse_stock_single, field_stock_single, installed_stock_single]
    obtain ⟨ihw, ihf, ihi⟩ := ih
    by_cases ht : (importationMovement it so r d tid2).tool_id = tid <;>
      simp [ht, importationMovement, whCase, fieldCase, instCase] <;> omega
  | dispatchStep l it r d w hl hq hle ih =>
    rw [warehouse_stock_append, field_stock_append, installed_stock_append,
      warehouse_stock_single, field_stock_single, installed_stock_single]
    obtain ⟨ihw, ihf, ihi⟩ := ih
    by_cases ht : (dispatchMovement it r d w).tool_id = tid
    · have htid : it.id = tid := ht
      rw [← htid] at ihw ihf ihi ⊢
      simp [dispatchMovement, whCase, fieldCase, instCase] at *
      omega
    · simp [ht]
      omega
  | returnStep l it r d hl hq hle ih =>
    rw [warehouse_stock_append, field_stock_append, installed_stock_append,
      warehouse_stock_single, field_stock_single, installed_stock_single]
    obtain ⟨ihw, ihf, ihi⟩ := ih
    by_cases ht : (returnMovement it r d).tool_id = tid
    · have htid : it.id = tid := ht
      rw [← htid] at ihw ihf ihi ⊢
      simp [returnMovement, whCase, fieldCase, instCase] at *
      omega
    · simp [ht]
      omega
  | installStep l tid2 r d q hl hq hle ih =>
    rw [warehouse_stock_append, field_stock_append, installed_stock_append,
      warehouse_stock_single, field_stock_single, installed_stock_single]
    obtain ⟨ihw, ihf, ihi⟩ := ih
    by_cases ht : tid2 = tid
    · subst ht
      simp [whCase, fieldCase, instCase] at *
      omega
    · simp [ht]
      omega
  | returnedStep l tid2 r d q hl hq hle ih =>
    rw [warehouse_stock_append, field_stock_append, installed_stock_append,
      warehouse_stock_single, field_stock_single, installed_stock_single]
    obtain ⟨ihw, ihf, ihi⟩ := ih
    by_cases ht : tid2 = tid
    · subst ht
      simp [whCase, fieldCase, instCase] at *
      omega
    · simp [ht]
      omega
  | revertStep l tid2 r d q hl hq hle ih =>
    rw [warehouse_stock_append, field_stock_append, installed_stock_append,
      warehouse_stock_single, field_stock_single, installed_stock_single]
    obtain ⟨ihw, ihf, ihi⟩ := ih
    by_cases ht : tid2 = tid
    · subst ht
      simp [whCase, fieldCase, instCase] at *
      omega
    · simp [ht]
      omega

theorem take_append_one (l : List Movement) (m : Movement) (n : Nat) :
    (l ++ [m]).take n = l.take n ∨ (l ++ [m]).take n = l ++ [m] := by
  rcases le_or_lt n l.length with hle | hlt
  · left
    exact List.take_append_of_le_length hle
  · right
    rw [List.take_append_eq_append_take, List.take_of_length_le (by omega)]
    have h1 : 1 ≤ n - l.length := by omega
    obtain ⟨k, hk⟩ : ∃ k, n - l.length = k + 1 := ⟨n - l.length - 1, by omega⟩
    rw [hk]
    simp

theorem opledger_take (l : List Movement) (h : OpLedger l) (n : Nat) :
    OpLedger (l.take n) := by
  induction h generalizing n with
  | nil =>
    rw [List.take_nil]
    exact .nil
  | importStep l it so r d tid hl hq ih =>
    rcases take_append_one l _ n with heq | heq
    · rw [heq]; exact ih n
    · rw [heq]; exact .importStep l it so r d tid hl hq
  | dispatchStep l it r d w hl hq hle ih =>
    rcases take_append_one l _ n with heq | heq
    · rw [heq]; exact ih n
    · rw [heq]; exact .dispatchStep l it r d w hl hq hle
  | returnStep l it r d hl hq hle ih =>
    rcases take_append_one l _ n with heq | heq
    · rw [heq]; exact ih n
    · rw [heq]; exact .returnStep l it r d hl hq hle
  | installStep l tid r d q hl hq hle ih =>
    rcases take_append_one l _ n with heq | heq
    · rw [heq]; exact ih n
    · rw [heq]; exact .installStep l tid r d q hl hq hle
  | returnedStep l tid r d q hl hq hle ih =>
    rcases take_append_one l _ n with heq | heq
    · rw [heq]; exact ih n
    · rw [heq]; exact .returnedStep l tid r d q hl hq hle
  | revertStep l tid r d q hl hq hle ih =>
    rcases take_append_one l _ n with heq | heq
    · rw [heq]; exact ih n
    · rw [heq]; exact .revertStep l tid r d q hl hq hle

/-- C3 counterexample: the operations never re-check quantities against
derived stock, so a ledger produced only by the defined Transaction
Operations with positive quantities can go negative — dispatching 1 unit
of a never-imported tool from the empty database leaves that tool's
derived warehouse stock at −1 < 0 already at the full-ledger prefix. -/
theorem dispatch_without_stock_goes_negative :
    warehouse_stock
        (dispatch_tools emptyDB [⟨1, 1⟩] "Pablo" "2024-01-01" (some "W-1")).movements 1 = -1
    ∧ ¬ (0 ≤ warehouse_stock
        (dispatch_tools emptyDB [⟨1, 1⟩] "Pablo" "2024-01-01" (some "W-1")).movements 1) := by
  decide

/-- C3 amended: under a ledger generated only through the defined
Transaction Operations where every appended movement's positive quantity
respects the caller-checked availability (dispatch ≤ current derived
warehouse stock, return and install ≤ current derived field stock, revert
≤ current derived installed stock of its tool at append time), all three
derived stocks of every tool are ≥ 0 at every prefix of the ledger. -/
theorem guarded_ops_stocks_nonneg (l : List Movement) (h : OpLedger l) (n : Nat) (tid : Nat) :
    0 ≤ warehouse_stock (l.take n) tid ∧ 0 ≤ field_stock (l.take n) tid
      ∧ 0 ≤ installed_stock (l.take n) tid :=
  opledger_stocks_nonneg (l.take n) (opledger_take l h n) tid

/-- Witness for C3 amended: the guarded Scenario-B ledger (import 10,
dispatch 3 ≤ 10, return 2 ≤ 3) has non-negative stocks at the length-2
prefix. -/
theorem guarded_ops_stocks_nonneg_witness :
    0 ≤ warehouse_stock (opLedgerB.take 2) 1 ∧ 0 ≤ field_stock (opLedgerB.take 2) 1
      ∧ 0 ≤ installed_stock (opLedgerB.take 2) 1 :=
  guarded_ops_stocks_nonneg opLedgerB
    (.returnStep _ ⟨1, 2, some "W-2"⟩ "Pablo" "2024-02-03"
      (.dispatchStep _ ⟨1, 3⟩ "Pablo" "2024-02-02" (some "W-2")
        (.importStep _ itemB (some "SO-2") "Pablo" "2024-02-01" 1 .nil (by decide))
        (by decide) (by decide))
      (by decide) (by decide))
    2 1
